import Mathlib

/-!
Verification of the PeerZero credibility/scoring engine.

Shallow embedding of the JavaScript source into Lean 4.  JavaScript numbers
are modelled as rationals (`ℚ`); `x.toFixed(2)` followed by `parseFloat` is
modelled by `round2` (ECMAScript `toFixed` rounds half-up on exact values);
nullable columns are modelled by `Option`; JavaScript falsiness of a number
(`!x`) is the test `x = 0`, and of a nullable the test `= none` plus `= some 0`
where both can occur.
-/

set_option maxHeartbeats 1000000

/-- Model of `parseFloat(x.toFixed(2))`: round half-up to two decimals. -/
def round2 (x : ℚ) : ℚ := ((⌊x * 100 + 1/2⌋ : ℤ) : ℚ) / 100

theorem round2_mono {x y : ℚ} (h : x ≤ y) : round2 x ≤ round2 y := by
  unfold round2
  have h1 : (⌊x * 100 + 1/2⌋ : ℤ) ≤ ⌊y * 100 + 1/2⌋ := Int.floor_mono (by linarith)
  have h2 : ((⌊x * 100 + 1/2⌋ : ℤ) : ℚ) ≤ ((⌊y * 100 + 1/2⌋ : ℤ) : ℚ) := by
    exact_mod_cast h1
  linarith

theorem round2_nonneg {x : ℚ} (h : 0 ≤ x) : 0 ≤ round2 x := by
  unfold round2
  have h1 : (0 : ℤ) ≤ ⌊x * 100 + 1/2⌋ := by
    rw [Int.le_floor]
    push_cast
    linarith
  have h2 : (0 : ℚ) ≤ ((⌊x * 100 + 1/2⌋ : ℤ) : ℚ) := by exact_mod_cast h1
  linarith

theorem round2_nonpos {x : ℚ} (h : x ≤ 0) : round2 x ≤ 0 := by
  unfold round2
  have h1 : (⌊x * 100 + 1/2⌋ : ℤ) < 1 := by
    rw [Int.floor_lt]
    push_cast
    linarith
  have h2 : (⌊x * 100 + 1/2⌋ : ℤ) ≤ 0 := by omega
  have h3 : ((⌊x * 100 + 1/2⌋ : ℤ) : ℚ) ≤ 0 := by exact_mod_cast h2
  linarith

theorem round2_intCast_div (n : ℤ) : round2 ((n : ℚ) / 100) = (n : ℚ) / 100 := by
  unfold round2
  rw [div_mul_cancel₀ _ (by norm_num : (100 : ℚ) ≠ 0)]
  rw [Int.floor_int_add]
  norm_num

theorem round2_idem (x : ℚ) : round2 (round2 x) = round2 x :=
  round2_intCast_div _

-- ============================================================
-- src/engine.js — CredibilityEngine
-- ============================================================

namespace Engine

/-- A row of `reviews` as used by the scoring routines. -/
structure Rev where
  score : ℚ
  reviewer_credibility_at_time : ℚ
  deriving DecidableEq

/-- `CredibilityEngine.calculateReviewerWeight` from src/engine.js. -/
def calculateReviewerWeight (credibilityScore : ℚ) : ℚ :=
  if credibilityScore ≤ 10 then 1/10
  else if credibilityScore ≤ 25 then 3/10
  else if credibilityScore ≤ 50 then 3/5
  else if credibilityScore ≤ 75 then 1
  else if credibilityScore ≤ 100 then 7/5
  else if credibilityScore ≤ 150 then 9/5
  else 2

/-- `CONFIG.MIN_REVIEWS_FOR_SCORE` from src/engine.js. -/
def MIN_REVIEWS_FOR_SCORE : ℕ := 5

/-- The `totalWeight` accumulator of `calculateWeightedScore` in src/engine.js. -/
def totalWeight (reviews : List Rev) : ℚ :=
  (reviews.map (fun r => calculateReviewerWeight r.reviewer_credibility_at_time)).sum

/-- The `totalWeightedScore` accumulator of `calculateWeightedScore` in src/engine.js. -/
def totalWeightedScore (reviews : List Rev) : ℚ :=
  (reviews.map (fun r =>
    r.score * calculateReviewerWeight r.reviewer_credibility_at_time)).sum

/-- `CredibilityEngine.calculateWeightedScore` from src/engine.js
(its `toFixed(2)` result modelled numerically). -/
def calculateWeightedScore (reviews : List Rev) : Option ℚ :=
  if reviews.length < MIN_REVIEWS_FOR_SCORE then none
  else if 0 < totalWeight reviews then
    some (round2 (totalWeightedScore reviews / totalWeight reviews))
  else none

/-- `CredibilityEngine.applyCredibilityChange` from src/engine.js. -/
def applyCredibilityChange (currentScore change : ℚ) : ℚ :=
  max 0 (min 200 (currentScore + change))

theorem calculateReviewerWeight_bounds (c : ℚ) :
    1/10 ≤ calculateReviewerWeight c ∧ calculateReviewerWeight c ≤ 2 := by
  unfold calculateReviewerWeight
  split_ifs <;> norm_num

theorem totalWeight_nonneg (rs : List Rev) : 0 ≤ totalWeight rs := by
  induction rs with
  | nil => simp [totalWeight]
  | cons a l ih =>
    have h := (calculateReviewerWeight_bounds a.reviewer_credibility_at_time).1
    simp only [totalWeight, List.map_cons, List.sum_cons] at *
    linarith

theorem totalWeight_pos {rs : List Rev} (h : rs ≠ []) : 0 < totalWeight rs := by
  cases rs with
  | nil => exact absurd rfl h
  | cons a l =>
    have h1 := (calculateReviewerWeight_bounds a.reviewer_credibility_at_time).1
    have h2 := totalWeight_nonneg l
    simp only [totalWeight, List.map_cons, List.sum_cons] at *
    linarith

end Engine

/-- C10: every reviewer weight lies in [0.1, 2.0]; hence any non-empty review
list has strictly positive total weight, and whenever the minimum review count
(5) is met the weighted-score calculation takes the division branch — the
zero-total-weight `null` branch is unreachable and no division by zero occurs. -/
theorem C10_weight_floor_no_div_zero :
    (∀ c : ℚ, 1/10 ≤ Engine.calculateReviewerWeight c ∧
      Engine.calculateReviewerWeight c ≤ 2) ∧
    (∀ rs : List Engine.Rev, rs ≠ [] → 0 < Engine.totalWeight rs) ∧
    (∀ rs : List Engine.Rev, Engine.MIN_REVIEWS_FOR_SCORE ≤ rs.length →
      Engine.calculateWeightedScore rs =
        some (round2 (Engine.totalWeightedScore rs / Engine.totalWeight rs))) := by
  refine ⟨Engine.calculateReviewerWeight_bounds, fun rs h => Engine.totalWeight_pos h, ?_⟩
  intro rs h
  have hne : rs ≠ [] := by
    intro he
    rw [he] at h
    simp [Engine.MIN_REVIEWS_FOR_SCORE] at h
  have hpos := Engine.totalWeight_pos hne
  unfold Engine.calculateWeightedScore
  rw [if_neg (by omega), if_pos hpos]

/-- Witness for C10 at concrete inputs. -/
theorem C10_witness :
    0 < Engine.totalWeight [⟨8, 50⟩] ∧
    Engine.calculateWeightedScore [⟨8, 50⟩, ⟨8, 50⟩, ⟨8, 50⟩, ⟨8, 50⟩, ⟨2, 50⟩] =
      some (round2 (Engine.totalWeightedScore
          [⟨8, 50⟩, ⟨8, 50⟩, ⟨8, 50⟩, ⟨8, 50⟩, ⟨2, 50⟩] /
        Engine.totalWeight [⟨8, 50⟩, ⟨8, 50⟩, ⟨8, 50⟩, ⟨8, 50⟩, ⟨2, 50⟩])) :=
  ⟨C10_weight_floor_no_div_zero.2.1 _ (by decide),
   C10_weight_floor_no_div_zero.2.2 _ (by decide)⟩

theorem round2_eq (x : ℚ) (n : ℤ) (h1 : (n : ℚ) ≤ x * 100 + 1/2)
    (h2 : x * 100 + 1/2 < (n : ℚ) + 1) : round2 x = (n : ℚ) / 100 := by
  unfold round2
  have h : ⌊x * 100 + 1/2⌋ = n := by
    rw [Int.floor_eq_iff]
    constructor
    · exact h1
    · linarith
  rw [h]

theorem round2_c75 : round2 75 = 75 := by
  rw [round2_eq 75 7500 (by norm_num) (by norm_num)]
  norm_num

theorem round2_c100 : round2 100 = 100 := by
  rw [round2_eq 100 10000 (by norm_num) (by norm_num)]
  norm_num

theorem round2_c150 : round2 150 = 150 := by
  rw [round2_eq 150 15000 (by norm_num) (by norm_num)]
  norm_num

theorem round2_c175 : round2 175 = 175 := by
  rw [round2_eq 175 17500 (by norm_num) (by norm_num)]
  norm_num

theorem round2_c200 : round2 200 = 200 := by
  rw [round2_eq 200 20000 (by norm_num) (by norm_num)]
  norm_num

theorem round2_c749 : round2 (749/10) = 749/10 := by
  rw [round2_eq (749/10) 7490 (by norm_num) (by norm_num)]
  norm_num

-- ============================================================
-- src/api/lib/shared.js — applyTierCap (REBALANCE v3)
-- ============================================================

namespace Shared

/-- The agent counters `applyTierCap` recomputes from live store queries:
passing reviews, valid bounties, original papers, revisions, and the best
weighted score among the agent's papers (`null` when no paper has one). -/
structure Counters where
  reviews : ℕ
  bounties : ℕ
  papers : ℕ
  revisions : ℕ
  bestScore : Option ℚ
  deriving DecidableEq

/-- `bestScore && bestScore >= t` — the paper-quality part of a tier gate
(`!bestScore || bestScore < t` is its negation in the source). -/
def bestOk (b : Option ℚ) (t : ℚ) : Bool :=
  match b with
  | none => false
  | some s => decide (t ≤ s)

/-- Failure of the tier-4 gate conditions (175+ band) in shared.js. -/
def tier200bad (k : Counters) : Bool :=
  decide (k.reviews < 75) || decide (k.bounties < 30) || decide (k.papers < 12) ||
    decide (k.revisions < 5) || !bestOk k.bestScore (17/2)

/-- Failure of the tier-3 gate conditions (150+ band) in shared.js. -/
def tier175bad (k : Counters) : Bool :=
  decide (k.reviews < 50) || decide (k.bounties < 20) || decide (k.papers < 8) ||
    decide (k.revisions < 4) || !bestOk k.bestScore 8

/-- Failure of the tier-2 gate conditions (100+ band) in shared.js. -/
def tier150bad (k : Counters) : Bool :=
  decide (k.reviews < 35) || decide (k.bounties < 12) || decide (k.papers < 5) ||
    decide (k.revisions < 3) || !bestOk k.bestScore (15/2)

/-- Failure of the tier-1 gate conditions (75+ band) in shared.js. -/
def tier75bad (k : Counters) : Bool :=
  decide (k.reviews < 20) || decide (k.bounties < 6) || decide (k.papers < 3) ||
    decide (k.revisions < 2) || !bestOk k.bestScore 7

/-- Failure of the pre-75 gate conditions in shared.js. -/
def pre75bad (k : Counters) : Bool :=
  decide (k.reviews < 10) || decide (k.bounties < 1) || decide (k.papers < 2) ||
    decide (k.revisions < 1)

/-- `if (newCred > 200) newCred = 200` in shared.js. -/
def capTop (c : ℚ) : ℚ := if 200 < c then 200 else c

/-- One strict tier gate of shared.js:
`if (newCred > thr && bad) newCred = Math.min(newCred, thr)`. -/
def gateStrict (bad : Bool) (thr c : ℚ) : ℚ :=
  if thr < c ∧ bad = true then min c thr else c

/-- The pre-75 gate of shared.js:
`if (newCred >= 75 && bad) newCred = Math.min(newCred, 74.9)`. -/
def gatePre (bad : Bool) (c : ℚ) : ℚ :=
  if 75 ≤ c ∧ bad = true then min c (749/10) else c

/-- The cap cascade of `applyTierCap` in shared.js before the final
two-decimal rounding, applied top tier down. -/
def pipe (k : Counters) (c : ℚ) : ℚ :=
  gatePre (pre75bad k)
    (gateStrict (tier75bad k) 75
      (gateStrict (tier150bad k) 100
        (gateStrict (tier175bad k) 150
          (gateStrict (tier200bad k) 175 (capTop c)))))

/-- `applyTierCap` from src/api/lib/shared.js (the live-count queries are the
`Counters` argument; `parseFloat(newCred.toFixed(2))` is `round2`). -/
def applyTierCap (k : Counters) (c : ℚ) : ℚ := round2 (pipe k c)

theorem capTop_le (c : ℚ) : capTop c ≤ 200 := by
  unfold capTop
  split_ifs with h
  · exact le_refl _
  · linarith [not_lt.mp h]

theorem gateStrict_le (bad : Bool) (thr c : ℚ) : gateStrict bad thr c ≤ c := by
  unfold gateStrict
  split_ifs with h
  · exact min_le_left _ _
  · exact le_refl _

theorem gatePre_le (bad : Bool) (c : ℚ) : gatePre bad c ≤ c := by
  unfold gatePre
  split_ifs with h
  · exact min_le_left _ _
  · exact le_refl _

theorem gateStrict_of_bad {bad : Bool} (hb : bad = true) (thr c : ℚ) :
    gateStrict bad thr c ≤ thr := by
  unfold gateStrict
  split_ifs with h
  · exact min_le_right _ _
  · push_neg at h
    exact le_of_not_lt (fun hc => (h hc) hb)

theorem gatePre_of_bad {bad : Bool} (hb : bad = true) (c : ℚ) :
    gatePre bad c < 75 := by
  unfold gatePre
  split_ifs with h
  · calc min c (749/10) ≤ 749/10 := min_le_right _ _
      _ < 75 := by norm_num
  · push_neg at h
    exact lt_of_not_le (fun hc => (h hc) hb)

theorem gateStrict_id_of_le {thr c : ℚ} (bad : Bool) (h : c ≤ thr) :
    gateStrict bad thr c = c := by
  unfold gateStrict
  rw [if_neg]
  intro hh
  exact absurd hh.1 (not_lt.mpr h)

theorem gateStrict_id_of_good {bad : Bool} (hb : bad = false) (thr c : ℚ) :
    gateStrict bad thr c = c := by
  unfold gateStrict
  rw [if_neg]
  intro hh
  rw [hb] at hh
  exact Bool.false_ne_true hh.2

theorem gatePre_id_of_lt {c : ℚ} (bad : Bool) (h : c < 75) :
    gatePre bad c = c := by
  unfold gatePre
  rw [if_neg]
  intro hh
  exact absurd hh.1 (not_le.mpr h)

theorem gatePre_id_of_good {bad : Bool} (hb : bad = false) (c : ℚ) :
    gatePre bad c = c := by
  unfold gatePre
  rw [if_neg]
  intro hh
  rw [hb] at hh
  exact Bool.false_ne_true hh.2

theorem pipe_le_capTop (k : Counters) (c : ℚ) : pipe k c ≤ capTop c := by
  unfold pipe
  calc gatePre (pre75bad k) _ ≤ _ := gatePre_le _ _
    _ ≤ _ := gateStrict_le _ _ _
    _ ≤ _ := gateStrict_le _ _ _
    _ ≤ _ := gateStrict_le _ _ _
    _ ≤ capTop c := gateStrict_le _ _ _

theorem pipe_le_200 (k : Counters) (c : ℚ) : pipe k c ≤ 200 :=
  le_trans (pipe_le_capTop k c) (capTop_le c)

theorem pipe_le_of_bad200 {k : Counters} (hb : tier200bad k = true) (c : ℚ) :
    pipe k c ≤ 175 := by
  unfold pipe
  calc gatePre (pre75bad k) _ ≤ _ := gatePre_le _ _
    _ ≤ _ := gateStrict_le _ _ _
    _ ≤ _ := gateStrict_le _ _ _
    _ ≤ _ := gateStrict_le _ _ _
    _ ≤ 175 := gateStrict_of_bad hb _ _

theorem pipe_le_of_bad175 {k : Counters} (hb : tier175bad k = true) (c : ℚ) :
    pipe k c ≤ 150 := by
  unfold pipe
  calc gatePre (pre75bad k) _ ≤ _ := gatePre_le _ _
    _ ≤ _ := gateStrict_le _ _ _
    _ ≤ _ := gateStrict_le _ _ _
    _ ≤ 150 := gateStrict_of_bad hb _ _

theorem pipe_le_of_bad150 {k : Counters} (hb : tier150bad k = true) (c : ℚ) :
    pipe k c ≤ 100 := by
  unfold pipe
  calc gatePre (pre75bad k) _ ≤ _ := gatePre_le _ _
    _ ≤ _ := gateStrict_le _ _ _
    _ ≤ 100 := gateStrict_of_bad hb _ _

theorem pipe_le_of_bad75 {k : Counters} (hb : tier75bad k = true) (c : ℚ) :
    pipe k c ≤ 75 := by
  unfold pipe
  calc gatePre (pre75bad k) _ ≤ _ := gatePre_le _ _
    _ ≤ 75 := gateStrict_of_bad hb _ _

theorem pipe_lt_of_badPre {k : Counters} (hb : pre75bad k = true) (c : ℚ) :
    pipe k c < 75 := by
  unfold pipe
  exact gatePre_of_bad hb _

theorem pipe_id {k : Counters} {v : ℚ} (h200 : v ≤ 200)
    (hA : tier200bad k = true → v ≤ 175) (hB : tier175bad k = true → v ≤ 150)
    (hC : tier150bad k = true → v ≤ 100) (hD : tier75bad k = true → v ≤ 75)
    (hE : pre75bad k = true → v < 75) : pipe k v = v := by
  unfold pipe
  have hcap : capTop v = v := by
    unfold capTop
    rw [if_neg (not_lt.mpr h200)]
  rw [hcap]
  have h1 : gateStrict (tier200bad k) 175 v = v := by
    cases hb : tier200bad k with
    | false => exact gateStrict_id_of_good rfl _ _
    | true => exact gateStrict_id_of_le _ (hA hb)
  rw [h1]
  have h2 : gateStrict (tier175bad k) 150 v = v := by
    cases hb : tier175bad k with
    | false => exact gateStrict_id_of_good rfl _ _
    | true => exact gateStrict_id_of_le _ (hB hb)
  rw [h2]
  have h3 : gateStrict (tier150bad k) 100 v = v := by
    cases hb : tier150bad k with
    | false => exact gateStrict_id_of_good rfl _ _
    | true => exact gateStrict_id_of_le _ (hC hb)
  rw [h3]
  have h4 : gateStrict (tier75bad k) 75 v = v := by
    cases hb : tier75bad k with
    | false => exact gateStrict_id_of_good rfl _ _
    | true => exact gateStrict_id_of_le _ (hD hb)
  rw [h4]
  cases hb : pre75bad k with
  | false => exact gatePre_id_of_good rfl _
  | true => exact gatePre_id_of_lt _ (hE hb)

theorem pipe_pipe (k : Counters) (c : ℚ) : pipe k (pipe k c) = pipe k c :=
  pipe_id (pipe_le_200 k c) (fun hb => pipe_le_of_bad200 hb c)
    (fun hb => pipe_le_of_bad175 hb c) (fun hb => pipe_le_of_bad150 hb c)
    (fun hb => pipe_le_of_bad75 hb c) (fun hb => pipe_lt_of_badPre hb c)

theorem round2_gateStrict {thr c : ℚ} (bad : Bool) (hthr : round2 thr = thr)
    (hc : round2 c = c) : round2 (gateStrict bad thr c) = gateStrict bad thr c := by
  unfold gateStrict
  split_ifs with h
  · rw [min_eq_right (le_of_lt h.1)]
    exact hthr
  · exact hc

theorem round2_gatePre {c : ℚ} (bad : Bool) (hc : round2 c = c) :
    round2 (gatePre bad c) = gatePre bad c := by
  unfold gatePre
  split_ifs with h
  · rw [min_eq_right (by linarith [h.1] : (749/10 : ℚ) ≤ c)]
    exact round2_c749
  · exact hc

theorem round2_capTop {c : ℚ} (hc : round2 c = c) : round2 (capTop c) = capTop c := by
  unfold capTop
  split_ifs with h
  · exact round2_c200
  · exact hc

theorem round2_pipe {c : ℚ} (k : Counters) (hc : round2 c = c) :
    round2 (pipe k c) = pipe k c := by
  unfold pipe
  exact round2_gatePre _
    (round2_gateStrict _ round2_c75
      (round2_gateStrict _ round2_c100
        (round2_gateStrict _ round2_c150
          (round2_gateStrict _ round2_c175 (round2_capTop hc)))))

theorem gateStrict_nonneg {thr c : ℚ} (bad : Bool) (hthr : 0 ≤ thr) (hc : 0 ≤ c) :
    0 ≤ gateStrict bad thr c := by
  unfold gateStrict
  split_ifs with h
  · exact le_min hc hthr
  · exact hc

theorem gatePre_nonneg {c : ℚ} (bad : Bool) (hc : 0 ≤ c) : 0 ≤ gatePre bad c := by
  unfold gatePre
  split_ifs with h
  · exact le_min hc (by norm_num)
  · exact hc

theorem capTop_nonneg {c : ℚ} (hc : 0 ≤ c) : 0 ≤ capTop c := by
  unfold capTop
  split_ifs with h
  · norm_num
  · exact hc

theorem pipe_nonneg {c : ℚ} (k : Counters) (hc : 0 ≤ c) : 0 ≤ pipe k c := by
  unfold pipe
  exact gatePre_nonneg _
    (gateStrict_nonneg _ (by norm_num)
      (gateStrict_nonneg _ (by norm_num)
        (gateStrict_nonneg _ (by norm_num)
          (gateStrict_nonneg _ (by norm_num) (capTop_nonneg hc)))))

theorem applyTierCap_mem {c : ℚ} (k : Counters) (hc : 0 ≤ c) :
    0 ≤ applyTierCap k c ∧ applyTierCap k c ≤ 200 := by
  unfold applyTierCap
  constructor
  · exact round2_nonneg (pipe_nonneg k hc)
  · calc round2 (pipe k c) ≤ round2 200 := round2_mono (pipe_le_200 k c)
      _ = 200 := round2_c200

end Shared

/-- C3 (counterexample): tier cap enforcement is not idempotent as stated.
With all live counters zero and the proposed value 74.996, one application of
`applyTierCap` rounds the untouched value up to exactly 75; a second
application then trips the pre-75 gate on that 75 and returns 74.9, so
applying the cap twice differs from applying it once. -/
theorem C3_counterexample :
    Shared.applyTierCap ⟨0, 0, 0, 0, none⟩
        (Shared.applyTierCap ⟨0, 0, 0, 0, none⟩ (74996/1000)) ≠
      Shared.applyTierCap ⟨0, 0, 0, 0, none⟩ (74996/1000) := by
  have e1 : Shared.pipe ⟨0, 0, 0, 0, none⟩ (74996/1000) = 74996/1000 :=
    Shared.pipe_id (by norm_num) (fun _ => by norm_num) (fun _ => by norm_num)
      (fun _ => by norm_num) (fun _ => by norm_num) (fun _ => by norm_num)
  have e2 : Shared.applyTierCap ⟨0, 0, 0, 0, none⟩ (74996/1000) = 75 := by
    unfold Shared.applyTierCap
    rw [e1, round2_eq _ 7500 (by norm_num) (by norm_num)]
    norm_num
  have e3 : Shared.pipe ⟨0, 0, 0, 0, none⟩ 75 = 749/10 := by
    unfold Shared.pipe
    have hcap : Shared.capTop 75 = 75 := by
      unfold Shared.capTop
      rw [if_neg (by norm_num)]
    rw [hcap]
    rw [@Shared.gateStrict_id_of_le 175 75 _ (by norm_num)]
    rw [@Shared.gateStrict_id_of_le 150 75 _ (by norm_num)]
    rw [@Shared.gateStrict_id_of_le 100 75 _ (by norm_num)]
    rw [@Shared.gateStrict_id_of_le 75 75 _ (by norm_num)]
    unfold Shared.gatePre
    rw [if_pos ⟨by norm_num, by decide⟩]
    rw [min_eq_right (by norm_num)]
  have e4 : Shared.applyTierCap ⟨0, 0, 0, 0, none⟩ 75 = 749/10 := by
    unfold Shared.applyTierCap
    rw [e3]
    exact round2_c749
  rw [e2, e4]
  norm_num

/-- C3 (amended): tier cap enforcement is idempotent for every proposed
credibility value already expressed at two decimals (as every credibility
stored by the system is, being an output of the cap's own final rounding)
and every fixed set of agent counters. -/
theorem C3_tier_cap_idempotent (k : Shared.Counters) (c : ℚ) (h : round2 c = c) :
    Shared.applyTierCap k (Shared.applyTierCap k c) = Shared.applyTierCap k c := by
  have h1 : Shared.applyTierCap k c = Shared.pipe k c := Shared.round2_pipe k h
  rw [h1]
  unfold Shared.applyTierCap
  rw [Shared.pipe_pipe]
  exact Shared.round2_pipe k h

/-- Witness for C3 at a concrete two-decimal input. -/
theorem C3_witness :
    round2 (749/10) = 749/10 ∧
    Shared.applyTierCap ⟨0, 0, 0, 0, none⟩
        (Shared.applyTierCap ⟨0, 0, 0, 0, none⟩ (749/10)) =
      Shared.applyTierCap ⟨0, 0, 0, 0, none⟩ (749/10) :=
  ⟨round2_c749, C3_tier_cap_idempotent ⟨0, 0, 0, 0, none⟩ (749/10) round2_c749⟩

-- ============================================================
-- Shared enumerations of the data model (schema.sql)
-- ============================================================

/-- Paper lifecycle statuses (the `removed` soft-delete state never flows
through the status classifier and is omitted). -/
inductive Status where
  | pending
  | active
  | contested
  | hall_of_science
  | distinguished
  | landmark
  deriving DecidableEq

/-- `response_stance` values of response papers. -/
inductive Stance where
  | support
  | neutral
  | rebut
  | revision
  deriving DecidableEq

-- ============================================================
-- src/api/reviews.js — tier cap, Elo author change, status
-- override, quality gate
-- ============================================================

namespace ReviewsApi

/-- The counters `applyTierCap` in reviews.js derives: the live passing-review
count, the cached `valid_bounties`, original papers, revisions, best paper
score, and the hall/distinguished paper flags. -/
structure RCounters where
  reviewsCompleted : ℕ
  bounties : ℕ
  originalPapers : ℕ
  revisions : ℕ
  bestPaperScore : Option ℚ
  hasHallPaper : Bool
  hasDistinguishedPaper : Bool
  deriving DecidableEq

/-- Failure of the `TIER_CAPS[200]` gate in reviews.js. -/
def r200bad (k : RCounters) : Bool :=
  decide (k.reviewsCompleted < 100) || decide (k.bounties < 250) || !k.hasDistinguishedPaper

/-- Failure of the `TIER_CAPS[175]` gate in reviews.js. -/
def r175bad (k : RCounters) : Bool :=
  decide (k.reviewsCompleted < 50) || decide (k.bounties < 75) || !k.hasHallPaper

/-- Failure of the `TIER_CAPS[150]` gate in reviews.js. -/
def r150bad (k : RCounters) : Bool :=
  decide (k.reviewsCompleted < 25) || decide (k.bounties < 20) ||
    !Shared.bestOk k.bestPaperScore 8

/-- Failure of the `TIER_CAPS[75]` gate in reviews.js. -/
def r75bad (k : RCounters) : Bool :=
  decide (k.reviewsCompleted < 10) || decide (k.bounties < 5) ||
    decide (k.originalPapers < 2) || decide (k.revisions < 2)

/-- The cap cascade of `applyTierCap` in reviews.js before final rounding. -/
def pipeR (k : RCounters) (c : ℚ) : ℚ :=
  Shared.gatePre (r75bad k)
    (Shared.gateStrict (r150bad k) 100
      (Shared.gateStrict (r175bad k) 150
        (Shared.gateStrict (r200bad k) 175 (Shared.capTop c))))

/-- `applyTierCap` from src/api/reviews.js (local to that module — it differs
from the shared.js version in thresholds and counters). -/
def applyTierCap (k : RCounters) (c : ℚ) : ℚ := round2 (pipeR k c)

theorem pipeR_le_200 (k : RCounters) (c : ℚ) : pipeR k c ≤ 200 := by
  unfold pipeR
  calc Shared.gatePre (r75bad k) _ ≤ _ := Shared.gatePre_le _ _
    _ ≤ _ := Shared.gateStrict_le _ _ _
    _ ≤ _ := Shared.gateStrict_le _ _ _
    _ ≤ Shared.capTop c := Shared.gateStrict_le _ _ _
    _ ≤ 200 := Shared.capTop_le c

theorem pipeR_nonneg {c : ℚ} (k : RCounters) (hc : 0 ≤ c) : 0 ≤ pipeR k c := by
  unfold pipeR
  exact Shared.gatePre_nonneg _
    (Shared.gateStrict_nonneg _ (by norm_num)
      (Shared.gateStrict_nonneg _ (by norm_num)
        (Shared.gateStrict_nonneg _ (by norm_num) (Shared.capTop_nonneg hc))))

theorem applyTierCapR_mem {c : ℚ} (k : RCounters) (hc : 0 ≤ c) :
    0 ≤ applyTierCap k c ∧ applyTierCap k c ≤ 200 := by
  unfold applyTierCap
  constructor
  · exact round2_nonneg (pipeR_nonneg k hc)
  · calc round2 (pipeR k c) ≤ round2 200 := round2_mono (pipeR_le_200 k c)
      _ = 200 := round2_c200

/-- `expectedScore` of `eloAuthorChange` in reviews.js. -/
def expectedScore (authorCredibility : ℚ) : ℚ := 5 + (authorCredibility - 50) / 50

/-- `clampedExpected` of `eloAuthorChange` in reviews.js:
`Math.max(3, Math.min(9, expectedScore))`. -/
def clampedExpected (authorCredibility : ℚ) : ℚ :=
  max 3 (min 9 (expectedScore authorCredibility))

/-- The K-factor of `eloAuthorChange` in reviews.js. -/
def K (authorCredibility : ℚ) : ℚ :=
  if 150 < authorCredibility then 1/2
  else if 100 < authorCredibility then 1
  else if 75 < authorCredibility then 3/2
  else 2

/-- `eloAuthorChange` from src/api/reviews.js (`!paperScore` is the test for
a null or zero score; the final `toFixed(2)` is `round2`). -/
def eloAuthorChange (authorCredibility paperScore : ℚ) : ℚ :=
  if paperScore = 0 then 0
  else round2 ((paperScore - clampedExpected authorCredibility) * K authorCredibility)

theorem K_pos (c : ℚ) : 0 < K c := by
  unfold K
  split_ifs <;> norm_num

/-- The balance recorded by the Elo author transaction in reviews.js:
clamp to [0,200], then the local tier cap. -/
def eloAuthorBalanceAfter (k : RCounters) (authorCredibility paperScore : ℚ) : ℚ :=
  applyTierCap k (max 0 (min 200 (authorCredibility + eloAuthorChange authorCredibility paperScore)))

/-- The post-classification status override in reviews.js: a response paper
that is not a revision can never be written as hall_of_science, distinguished
or landmark — such statuses are forced back to active. -/
def finalStatus (parent_paper_id : Option ℕ) (response_stance : Option Stance)
    (newStatus : Status) : Status :=
  if parent_paper_id ≠ none ∧ response_stance ≠ some Stance.revision ∧
      (newStatus = Status.hall_of_science ∨ newStatus = Status.distinguished ∨
        newStatus = Status.landmark)
  then Status.active
  else newStatus

/-- JavaScript `String.trim` whitespace (the characters relevant here). -/
def isWs (c : Char) : Bool := c == ' ' || c == '\t' || c == '\n' || c == '\r'

/-- `s.trim()` on a string modelled as a list of characters. -/
def trim (s : List Char) : List Char :=
  ((s.dropWhile isWs).reverse.dropWhile isWs).reverse

/-- A review submission's text fields; the empty list models both a missing
field and the empty string (both falsy in the source). -/
structure ReviewInput where
  overall_assessment : List Char
  methodology_notes : List Char
  statistical_validity_notes : List Char
  citation_accuracy_notes : List Char
  reproducibility_notes : List Char
  logical_consistency_notes : List Char
  deriving DecidableEq

/-- The `categories` array of `qualityGate` in reviews.js. -/
def categories (r : ReviewInput) : List (List Char) :=
  [r.methodology_notes, r.statistical_validity_notes, r.citation_accuracy_notes,
    r.reproducibility_notes, r.logical_consistency_notes]

/-- The `filled` filter of `qualityGate`: `c && c.trim().length >= 50`. -/
def filledCategories (r : ReviewInput) : List (List Char) :=
  (categories r).filter (fun c => !c.isEmpty && decide (50 ≤ (trim c).length))

/-- `qualityGate(review).passed` from src/api/reviews.js: no failure is pushed
iff the assessment is present with trimmed length ≥ 100 and at least 2
category notes have trimmed length ≥ 50. -/
def qualityGatePassed (r : ReviewInput) : Prop :=
  (r.overall_assessment ≠ [] ∧ 100 ≤ (trim r.overall_assessment).length) ∧
    2 ≤ (filledCategories r).length

theorem length_dropWhile_le {α : Type} (p : α → Bool) (l : List α) :
    (l.dropWhile p).length ≤ l.length := by
  induction l with
  | nil => simp
  | cons a l ih =>
    rw [List.dropWhile_cons]
    split_ifs with h
    · exact le_trans ih (by simp)
    · exact le_refl _

theorem trim_length_le (s : List Char) : (trim s).length ≤ s.length := by
  unfold trim
  rw [List.length_reverse]
  calc ((s.dropWhile isWs).reverse.dropWhile isWs).length
      ≤ (s.dropWhile isWs).reverse.length := length_dropWhile_le _ _
    _ = (s.dropWhile isWs).length := List.length_reverse _
    _ ≤ s.length := length_dropWhile_le _ _

end ReviewsApi

/-- C7 (counterexample): the Elo delta's sign is not exactly the sign of the
outperformance. For author credibility 49.99 and paper score 5, the paper
outperforms the clamped expectation (4.9998 < 5), yet the rounded delta is 0,
not positive. -/
theorem C7_counterexample :
    ReviewsApi.eloAuthorChange (4999/100) 5 = 0 ∧
    ReviewsApi.clampedExpected (4999/100) < 5 := by
  have hexp : ReviewsApi.clampedExpected (4999/100) = 24999/5000 := by
    unfold ReviewsApi.clampedExpected ReviewsApi.expectedScore
    rw [min_eq_right (by norm_num), max_eq_right (by norm_num)]
    norm_num
  have hK : ReviewsApi.K (4999/100) = 2 := by
    unfold ReviewsApi.K
    rw [if_neg (by norm_num), if_neg (by norm_num), if_neg (by norm_num)]
  constructor
  · unfold ReviewsApi.eloAuthorChange
    rw [if_neg (by norm_num), hexp, hK]
    rw [show ((5 : ℚ) - 24999/5000) * 2 = 1/2500 by norm_num]
    rw [round2_eq _ 0 (by norm_num) (by norm_num)]
    norm_num
  · rw [hexp]
    norm_num

/-- C7 (amended): for every non-zero paper score the Elo author adjustment
equals round((score − expected) × K, 2) with expected = clamp(5 + (cred −
50)/50, 3, 9); K is non-increasing in author credibility; and the delta is
nonnegative when the paper outperforms the expectation and nonpositive when
it underperforms (a sufficiently small out/under-performance rounds to 0). -/
theorem C7_elo_author_adjustment :
    (∀ cred score : ℚ, score ≠ 0 → ReviewsApi.eloAuthorChange cred score =
      round2 ((score - ReviewsApi.clampedExpected cred) * ReviewsApi.K cred)) ∧
    (∀ c₁ c₂ : ℚ, c₁ ≤ c₂ → ReviewsApi.K c₂ ≤ ReviewsApi.K c₁) ∧
    (∀ cred score : ℚ, score ≠ 0 → ReviewsApi.clampedExpected cred < score →
      0 ≤ ReviewsApi.eloAuthorChange cred score) ∧
    (∀ cred score : ℚ, score ≠ 0 → score < ReviewsApi.clampedExpected cred →
      ReviewsApi.eloAuthorChange cred score ≤ 0) := by
  refine ⟨?_, ?_, ?_, ?_⟩
  · intro cred score hs
    unfold ReviewsApi.eloAuthorChange
    rw [if_neg hs]
  · intro c₁ c₂ h
    unfold ReviewsApi.K
    split_ifs <;> (try norm_num) <;> linarith
  · intro cred score hs hlt
    unfold ReviewsApi.eloAuthorChange
    rw [if_neg hs]
    exact round2_nonneg
      (le_of_lt (mul_pos (sub_pos.mpr hlt) (ReviewsApi.K_pos cred)))
  · intro cred score hs hlt
    unfold ReviewsApi.eloAuthorChange
    rw [if_neg hs]
    exact round2_nonpos
      (le_of_lt (mul_neg_of_neg_of_pos (sub_neg.mpr hlt) (ReviewsApi.K_pos cred)))

/-- Witness for C7 at concrete inputs (credibility 50, score 7 outperforming;
credibility 50, score 2 underperforming). -/
theorem C7_witness :
    ReviewsApi.eloAuthorChange 50 7 =
      round2 ((7 - ReviewsApi.clampedExpected 50) * ReviewsApi.K 50) ∧
    ReviewsApi.K 100 ≤ ReviewsApi.K 50 ∧
    0 ≤ ReviewsApi.eloAuthorChange 50 7 ∧
    ReviewsApi.eloAuthorChange 50 2 ≤ 0 := by
  have hexp : ReviewsApi.clampedExpected 50 = 5 := by
    unfold ReviewsApi.clampedExpected ReviewsApi.expectedScore
    rw [min_eq_right (by norm_num), max_eq_right (by norm_num)]
    norm_num
  exact ⟨C7_elo_author_adjustment.1 50 7 (by norm_num),
    C7_elo_author_adjustment.2.1 50 100 (by norm_num),
    C7_elo_author_adjustment.2.2.1 50 7 (by norm_num) (by rw [hexp]; norm_num),
    C7_elo_author_adjustment.2.2.2 50 2 (by norm_num) (by rw [hexp]; norm_num)⟩

/-- C8: a response paper (has a parent) whose stance is not revision is never
written with status hall_of_science, distinguished or landmark — the override
in reviews.js forces any such classification back to active — while a
revision response keeps whatever status the classifier produced. -/
theorem C8_response_status_never_elite :
    (∀ (pid : ℕ) (st : Option Stance) (s : Status), st ≠ some Stance.revision →
      ReviewsApi.finalStatus (some pid) st s ≠ Status.hall_of_science ∧
      ReviewsApi.finalStatus (some pid) st s ≠ Status.distinguished ∧
      ReviewsApi.finalStatus (some pid) st s ≠ Status.landmark) ∧
    (∀ (parent : Option ℕ) (s : Status),
      ReviewsApi.finalStatus parent (some Stance.revision) s = s) := by
  constructor
  · intro pid st s hst
    unfold ReviewsApi.finalStatus
    split_ifs with h
    · exact ⟨by decide, by decide, by decide⟩
    · have helite : ¬(s = Status.hall_of_science ∨ s = Status.distinguished ∨
          s = Status.landmark) := by
        intro he
        exact h ⟨by simp, hst, he⟩
      exact ⟨fun hh => helite (Or.inl hh), fun hh => helite (Or.inr (Or.inl hh)),
        fun hh => helite (Or.inr (Or.inr hh))⟩
  · intro parent s
    unfold ReviewsApi.finalStatus
    rw [if_neg]
    intro h
    exact h.2.1 rfl

/-- Witness for C8 at concrete inputs. -/
theorem C8_witness :
    ReviewsApi.finalStatus (some 1) (some Stance.rebut) Status.landmark ≠
      Status.landmark ∧
    ReviewsApi.finalStatus (some 1) (some Stance.revision) Status.landmark =
      Status.landmark :=
  ⟨(C8_response_status_never_elite.1 1 (some Stance.rebut) Status.landmark
      (by decide)).2.2,
   C8_response_status_never_elite.2 (some 1) Status.landmark⟩

/-- C9 (counterexample): a review whose overall_assessment is exactly 100
characters is not always accepted — with no category notes filled the gate
still rejects it. -/
theorem C9_counterexample :
    (ReviewsApi.ReviewInput.mk (List.replicate 100 'a') [] [] [] [] []).overall_assessment.length = 100 ∧
    ¬ ReviewsApi.qualityGatePassed
      (ReviewsApi.ReviewInput.mk (List.replicate 100 'a') [] [] [] [] []) := by
  constructor
  · simp
  · intro h
    have h2 := h.2
    have : ReviewsApi.filledCategories
        (ReviewsApi.ReviewInput.mk (List.replicate 100 'a') [] [] [] [] []) = [] := by
      decide
    rw [this] at h2
    simp at h2

/-- C9 (amended): a review whose overall_assessment is 99 characters long is
always rejected (trimming cannot lengthen it past the 100 minimum); one whose
overall_assessment is 100 characters with no leading or trailing whitespace
passes the length criterion, and is then accepted precisely when at least two
of the five category notes have trimmed length ≥ 50. -/
theorem C9_quality_gate_boundary :
    (∀ r : ReviewsApi.ReviewInput, r.overall_assessment.length = 99 →
      ¬ ReviewsApi.qualityGatePassed r) ∧
    (∀ r : ReviewsApi.ReviewInput, r.overall_assessment.length = 100 →
      ReviewsApi.trim r.overall_assessment = r.overall_assessment →
      (ReviewsApi.qualityGatePassed r ↔ 2 ≤ (ReviewsApi.filledCategories r).length)) := by
  constructor
  · intro r h hq
    have h1 := hq.1.2
    have h2 := ReviewsApi.trim_length_le r.overall_assessment
    rw [h] at h2
    omega
  · intro r hlen htrim
    constructor
    · intro hq
      exact hq.2
    · intro hfill
      refine ⟨⟨?_, ?_⟩, hfill⟩
      · intro he
        rw [he] at hlen
        simp at hlen
      · rw [htrim, hlen]

-- ============================================================
-- src/unnamed/part_002 (review endpoint, scoring helpers):
-- weightedScore, stdDev, paperStatus
-- ============================================================

namespace Scoring

/-- A row of `reviews` as selected by the part_002 review endpoint. -/
structure Rev where
  score : ℚ
  reviewer_credibility_at_time : ℚ
  deriving DecidableEq

/-- `reviewerWeight` from src/unnamed/part_002. -/
def reviewerWeight (credibility : ℚ) : ℚ :=
  if credibility ≤ 10 then 1/10
  else if credibility ≤ 25 then 3/10
  else if credibility ≤ 50 then 3/5
  else if credibility ≤ 75 then 1
  else if credibility ≤ 100 then 7/5
  else if credibility ≤ 150 then 9/5
  else 2

/-- `r.reviewer_credibility_at_time || 50` — a falsy (0/null) snapshot
defaults to 50. -/
def credOrDefault (c : ℚ) : ℚ := if c = 0 then 50 else c

/-- The `weights` accumulator of `weightedScore` in part_002. -/
def weights (rs : List Rev) : ℚ :=
  (rs.map (fun r => reviewerWeight (credOrDefault r.reviewer_credibility_at_time))).sum

/-- The `total` accumulator of `weightedScore` in part_002. -/
def total (rs : List Rev) : ℚ :=
  (rs.map (fun r =>
    r.score * reviewerWeight (credOrDefault r.reviewer_credibility_at_time))).sum

/-- `weightedScore` from src/unnamed/part_002
(`parseFloat((total / weights).toFixed(2))` is `round2`). -/
def weightedScore (rs : List Rev) : Option ℚ :=
  if rs.length < 5 then none
  else if 0 < weights rs then some (round2 (total rs / weights rs))
  else none

/-- The `mean` of `stdDev` in part_002. -/
def meanOf (scores : List ℚ) : ℚ := scores.sum / scores.length

/-- The `variance` of `stdDev` in part_002 (before the square root). -/
def variancePop (scores : List ℚ) : ℚ :=
  (scores.map (fun x => (x - meanOf scores)^2)).sum / scores.length

/-- `stdDev` from src/unnamed/part_002: `Math.sqrt(variance)` of the raw
scores, 0 with fewer than 3 reviews. -/
noncomputable def stdDev (rs : List Rev) : ℝ :=
  if rs.length < 3 then 0 else Real.sqrt ((variancePop (rs.map Rev.score) : ℚ) : ℝ)

open Classical in
/-- `paperStatus` from src/unnamed/part_002 (`!score` is the null-or-zero
falsy test, modelled by `getD 0 = 0`). -/
noncomputable def paperStatus (score : Option ℚ) (reviewCount : ℕ) (variance : ℝ) :
    Status :=
  if score.getD 0 = 0 then Status.pending
  else if 4 ≤ variance then Status.contested
  else if 8 ≤ score.getD 0 ∧ 10 ≤ reviewCount then Status.hall_of_science
  else Status.active

end Scoring

/-- C6: for five passing reviews scoring [8,8,8,8,2] with every reviewer
credibility snapshot 50 (weight 0.6), the weighted score is exactly 6.8
(= 34/5), the population standard deviation is exactly 2.4 (= 12/5), and the
status classifier yields active — not pending and not contested (2.4 < 4). -/
theorem C6_consensus_example :
    Scoring.weightedScore [⟨8, 50⟩, ⟨8, 50⟩, ⟨8, 50⟩, ⟨8, 50⟩, ⟨2, 50⟩] =
      some (34/5) ∧
    Scoring.stdDev [⟨8, 50⟩, ⟨8, 50⟩, ⟨8, 50⟩, ⟨8, 50⟩, ⟨2, 50⟩] = (12/5 : ℝ) ∧
    Scoring.paperStatus
        (Scoring.weightedScore [⟨8, 50⟩, ⟨8, 50⟩, ⟨8, 50⟩, ⟨8, 50⟩, ⟨2, 50⟩]) 5
        (Scoring.stdDev [⟨8, 50⟩, ⟨8, 50⟩, ⟨8, 50⟩, ⟨8, 50⟩, ⟨2, 50⟩]) =
      Status.active := by
  have hcd : Scoring.credOrDefault 50 = 50 := by
    unfold Scoring.credOrDefault
    rw [if_neg (by norm_num)]
  have hw50 : Scoring.reviewerWeight 50 = 3/5 := by
    unfold Scoring.reviewerWeight
    rw [if_neg (by norm_num), if_neg (by norm_num), if_pos (by norm_num)]
  have hwts : Scoring.weights [⟨8, 50⟩, ⟨8, 50⟩, ⟨8, 50⟩, ⟨8, 50⟩, ⟨2, 50⟩] = 3 := by
    unfold Scoring.weights
    simp only [List.map_cons, List.map_nil, List.sum_cons, List.sum_nil]
    rw [hcd, hw50]
    norm_num
  have htot : Scoring.total [⟨8, 50⟩, ⟨8, 50⟩, ⟨8, 50⟩, ⟨8, 50⟩, ⟨2, 50⟩] = 102/5 := by
    unfold Scoring.total
    simp only [List.map_cons, List.map_nil, List.sum_cons, List.sum_nil]
    rw [hcd, hw50]
    norm_num
  have hws : Scoring.weightedScore [⟨8, 50⟩, ⟨8, 50⟩, ⟨8, 50⟩, ⟨8, 50⟩, ⟨2, 50⟩] =
      some (34/5) := by
    unfold Scoring.weightedScore
    rw [if_neg (by norm_num), if_pos (by rw [hwts]; norm_num)]
    rw [hwts, htot]
    rw [show (102 : ℚ)/5/3 = 34/5 by norm_num]
    rw [round2_eq _ 680 (by norm_num) (by norm_num)]
    norm_num
  have hvar : Scoring.variancePop [8, 8, 8, 8, 2] = 144/25 := by
    unfold Scoring.variancePop Scoring.meanOf
    norm_num
  have hstd : Scoring.stdDev [⟨8, 50⟩, ⟨8, 50⟩, ⟨8, 50⟩, ⟨8, 50⟩, ⟨2, 50⟩] =
      (12/5 : ℝ) := by
    unfold Scoring.stdDev
    rw [if_neg (by norm_num)]
    rw [show ([⟨8, 50⟩, ⟨8, 50⟩, ⟨8, 50⟩, ⟨8, 50⟩, ⟨2, 50⟩] :
        List Scoring.Rev).map Scoring.Rev.score = [8, 8, 8, 8, 2] from rfl]
    rw [hvar]
    rw [show (((144 : ℚ)/25 : ℚ) : ℝ) = ((12/5 : ℝ))^2 by push_cast; norm_num]
    exact Real.sqrt_sq (by norm_num)
  refine ⟨hws, hstd, ?_⟩
  rw [hws, hstd]
  unfold Scoring.paperStatus
  rw [if_neg (by norm_num), if_neg (by norm_num), if_neg (by norm_num)]

-- ============================================================
-- src/unnamed/part_000 — completeRegistration
-- ============================================================

namespace PartA

/-- `CONFIG.REGISTRATION_BONUS` from src/engine.js. -/
def REGISTRATION_BONUS : ℚ := 5

/-- The `balance_after` recorded by the registration-bonus transaction in
`completeRegistration` (src/unnamed/part_000): the agent's credibility plus
the bonus, with no clamping in this code path. -/
def registrationBalanceAfter (credibility : ℚ) : ℚ := credibility + REGISTRATION_BONUS

end PartA

-- ============================================================
-- src/api/bounties.js — truth anchor, validate action, balances
-- ============================================================

namespace Bounties

/-- `MIN_SCORE_DROP` from src/api/bounties.js (REBALANCE v3: 0.8). -/
def MIN_SCORE_DROP : ℚ := 8/10

/-- A response paper fetched by step 1 of `applyBountyValidation`: a child of
the target paper with status ≠ removed and a non-null weighted score (the
query does not filter by stance). -/
structure Reb where
  weighted_score : ℚ
  raw_review_count : ℕ
  response_stance : Stance
  deriving DecidableEq

/-- `rebuttalWeight` of one response paper: community agreement
(`weighted_score / 10`) times `min(1, raw_review_count / 5)`. -/
def rebWeight (r : Reb) : ℚ :=
  (r.weighted_score / 10) * min 1 ((r.raw_review_count : ℚ) / 5)

/-- `claimedScore` of one response paper: rebut stance inverts its own score,
any other stance boosts the original consensus. -/
def claimedScore (oc : ℚ) (r : Reb) : ℚ :=
  if r.response_stance = Stance.rebut then 10 - r.weighted_score * (9/10)
  else min 10 (oc + r.weighted_score * (3/10))

/-- The `totalRebuttalWeight` accumulator of `applyBountyValidation`. -/
def totalRebuttalWeight (rs : List Reb) : ℚ := (rs.map rebWeight).sum

/-- The `weightedTruthSum` accumulator of `applyBountyValidation`. -/
def weightedTruthSum (oc : ℚ) (rs : List Reb) : ℚ :=
  (rs.map (fun r => claimedScore oc r * rebWeight r)).sum

/-- `originalConsensus`: the unweighted mean of the target's passing reviews. -/
def originalConsensus (scores : List ℚ) : ℚ := scores.sum / scores.length

/-- The truth anchor computed by steps 3–4 of `applyBountyValidation`: blend
original consensus with the rebuttal truth when the total rebuttal weight is
positive (the source's outer non-empty-list test is subsumed, since an empty
list has total weight 0). -/
def truthAnchor (scores : List ℚ) (rebuttalPapers : List Reb) : ℚ :=
  let oc := originalConsensus scores
  if 0 < totalRebuttalWeight rebuttalPapers then
    let influence := min (8/10) (totalRebuttalWeight rebuttalPapers * (3/10))
    oc * (1 - influence) +
      (weightedTruthSum oc rebuttalPapers / totalRebuttalWeight rebuttalPapers) * influence
  else oc

/-- The truth anchor as the claim words it: only rebut/support response papers
contribute, and with none of those the anchor is exactly the unweighted mean
of the target's passing review scores. -/
def claimTruthAnchor (scores : List ℚ) (rebuttalPapers : List Reb) : ℚ :=
  let contributors := rebuttalPapers.filter (fun r =>
    decide (r.response_stance = Stance.rebut) || decide (r.response_stance = Stance.support))
  let oc := originalConsensus scores
  if contributors = [] then oc
  else
    let influence := min (8/10) (totalRebuttalWeight contributors * (3/10))
    oc * (1 - influence) +
      (weightedTruthSum oc contributors / totalRebuttalWeight contributors) * influence

/-- The amended truth-anchor specification: every fetched response paper with
a weighted score contributes regardless of stance (support, neutral and
revision all use the support formula), and with no contributing response
papers — equivalently zero total rebuttal weight — the anchor equals the
unweighted mean of the target's passing review scores. -/
def specTruthAnchorAmended (scores : List ℚ) (rebuttalPapers : List Reb) : ℚ :=
  let oc := originalConsensus scores
  if totalRebuttalWeight rebuttalPapers = 0 then oc
  else
    let influence := min (8/10) ((3/10) * totalRebuttalWeight rebuttalPapers)
    let rebuttalTruth :=
      weightedTruthSum oc rebuttalPapers / totalRebuttalWeight rebuttalPapers
    oc * (1 - influence) + rebuttalTruth * influence

theorem rebWeight_nonneg {r : Reb} (h : 0 ≤ r.weighted_score) : 0 ≤ rebWeight r := by
  unfold rebWeight
  have h1 : (0 : ℚ) ≤ r.weighted_score / 10 := by positivity
  have h2 : (0 : ℚ) ≤ min 1 ((r.raw_review_count : ℚ) / 5) := by positivity
  exact mul_nonneg h1 h2

theorem totalRebuttalWeight_nonneg {rs : List Reb}
    (h : ∀ r ∈ rs, 0 ≤ r.weighted_score) : 0 ≤ totalRebuttalWeight rs := by
  induction rs with
  | nil => simp [totalRebuttalWeight]
  | cons a l ih =>
    have ha := rebWeight_nonneg (h a (List.mem_cons_self a l))
    have hl := ih (fun r hr => h r (List.mem_cons_of_mem a hr))
    simp only [totalRebuttalWeight, List.map_cons, List.sum_cons] at *
    linarith

/-- The challenger reward (step 6 of `applyBountyValidation`):
`Math.min(4.0, scoreDrop * 2.0)`. -/
def challengerCredGain (scoreDrop : ℚ) : ℚ := min 4 (scoreDrop * 2)

/-- The `balance_after` recorded by the `bounty_validated` transaction:
`applyTierCap(Math.min(200, round2(cred + credGain)))`. -/
def challengerBalanceAfter (k : Shared.Counters) (credibility scoreDrop : ℚ) : ℚ :=
  Shared.applyTierCap k (min 200 (round2 (credibility + challengerCredGain scoreDrop)))

/-- The `balance_after` recorded by the `diversity_bonus` transaction:
`Math.min(200, round2(newCred + diversityBonus))` (no tier cap here). -/
def diversityBalanceAfter (newCred diversityBonus : ℚ) : ℚ :=
  min 200 (round2 (newCred + diversityBonus))

/-- The `balance_after` recorded by the reviewer (step 8) and voter (step 9)
reconciliation transactions: `applyTierCap(Math.max(0, Math.min(200,
round2(cred + credChange))))`. -/
def reconBalanceAfter (k : Shared.Counters) (credibility credChange : ℚ) : ℚ :=
  Shared.applyTierCap k (max 0 (min 200 (round2 (credibility + credChange))))

/-- A bounty row as touched by the validate action. -/
structure Bounty where
  is_valid : Bool
  score_before : Option ℚ
  score_after : Option ℚ
  score_drop : Option ℚ
  deriving DecidableEq

/-- The target paper columns read by the validate action. -/
structure PaperSnap where
  weighted_score : Option ℚ
  raw_review_count : ℕ
  deriving DecidableEq

/-- One bounty's processing by the validate action of bounties.js: the query
selects only bounties with `is_valid = false`; an unscored paper returns
early; a falsy `score_before` is skipped; otherwise the bounty is marked
valid exactly when the drop reaches `MIN_SCORE_DROP` and the paper's current
`raw_review_count` is at least 3. -/
def validateStep (currentPaper : PaperSnap) (b : Bounty) : Bounty :=
  if b.is_valid = true then b
  else if currentPaper.weighted_score.getD 0 = 0 then b
  else if b.score_before.getD 0 = 0 then b
  else if MIN_SCORE_DROP ≤ b.score_before.getD 0 - currentPaper.weighted_score.getD 0 ∧
      3 ≤ currentPaper.raw_review_count then
    { b with
      is_valid := true
      score_after := currentPaper.weighted_score
      score_drop := some (b.score_before.getD 0 - currentPaper.weighted_score.getD 0) }
  else b

/-- The validation precondition as the claim words it. Modelled from the
spec: the code does not record the target paper's review count at bounty
registration, so it appears here as a ghost parameter; the claim requires at
least 3 reviews accumulated since the bounty's registration. -/
def specValidates (reviewsAtRegistration : ℕ) (currentPaper : PaperSnap)
    (b : Bounty) : Prop :=
  MIN_SCORE_DROP ≤ b.score_before.getD 0 - currentPaper.weighted_score.getD 0 ∧
    3 ≤ currentPaper.raw_review_count - reviewsAtRegistration

end Bounties

/-- C1 (counterexample): the truth anchor does not restrict to rebut/support
response papers. A target with one passing review of 5 and a single revision
response (weighted score 10, 5 reviews) has no rebuttal/support response
papers, so the claim's formula yields the unweighted mean 5; the code also
blends the revision (as a non-rebut stance) and yields 5.9. -/
theorem C1_counterexample :
    Bounties.truthAnchor [5] [⟨10, 5, Stance.revision⟩] = 59/10 ∧
    Bounties.claimTruthAnchor [5] [⟨10, 5, Stance.revision⟩] = 5 ∧
    (59 : ℚ)/10 ≠ 5 := by
  have hoc : Bounties.originalConsensus [5] = 5 := by
    unfold Bounties.originalConsensus
    simp
  have hrw : Bounties.rebWeight ⟨10, 5, Stance.revision⟩ = 1 := by
    unfold Bounties.rebWeight
    norm_num
  have hcs : Bounties.claimedScore 5 ⟨10, 5, Stance.revision⟩ = 8 := by
    unfold Bounties.claimedScore
    rw [if_neg (by decide)]
    rw [show (5 : ℚ) + 10 * (3/10) = 8 by norm_num, min_eq_right (by norm_num)]
  have htw : Bounties.totalRebuttalWeight [⟨10, 5, Stance.revision⟩] = 1 := by
    unfold Bounties.totalRebuttalWeight
    simp only [List.map_cons, List.map_nil, List.sum_cons, List.sum_nil]
    rw [hrw]
    norm_num
  have hwts : Bounties.weightedTruthSum 5 [⟨10, 5, Stance.revision⟩] = 8 := by
    unfold Bounties.weightedTruthSum
    simp only [List.map_cons, List.map_nil, List.sum_cons, List.sum_nil]
    rw [hcs, hrw]
    norm_num
  refine ⟨?_, ?_, by norm_num⟩
  · unfold Bounties.truthAnchor
    dsimp only
    rw [hoc, htw, hwts]
    rw [if_pos (by norm_num)]
    rw [show min ((8 : ℚ)/10) (1 * (3/10)) = 3/10 by
      rw [one_mul]
      exact min_eq_right (by norm_num)]
    norm_num
  · unfold Bounties.claimTruthAnchor
    dsimp only
    have hfilter : List.filter (fun r =>
        decide (r.response_stance = Stance.rebut) ||
          decide (r.response_stance = Stance.support))
        [(⟨10, 5, Stance.revision⟩ : Bounties.Reb)] = [] := by
      decide
    rw [hfilter]
    rw [if_pos rfl]
    exact hoc

/-- C1 (amended): with zero response papers the truth anchor equals the
unweighted mean of the target's passing reviews exactly; and in general the
code's truth anchor agrees with the blend formula applied to ALL fetched
response papers carrying a weighted score — rebut stance claims 10 − 0.9w,
every other stance (support, neutral, revision) claims min(10, oc + 0.3w) —
with influence min(0.8, 0.3 × total weight), the anchor degenerating to the
mean when the total rebuttal weight is zero. -/
theorem C1_truth_anchor_blend :
    (∀ scores : List ℚ,
      Bounties.truthAnchor scores [] = Bounties.originalConsensus scores) ∧
    (∀ (scores : List ℚ) (rs : List Bounties.Reb),
      (∀ r ∈ rs, 0 ≤ r.weighted_score) →
      Bounties.truthAnchor scores rs = Bounties.specTruthAnchorAmended scores rs) := by
  constructor
  · intro scores
    unfold Bounties.truthAnchor
    dsimp only
    rw [if_neg]
    simp [Bounties.totalRebuttalWeight]
  · intro scores rs h
    have hnn := Bounties.totalRebuttalWeight_nonneg h
    unfold Bounties.truthAnchor Bounties.specTruthAnchorAmended
    dsimp only
    by_cases h0 : 0 < Bounties.totalRebuttalWeight rs
    · rw [if_pos h0, if_neg (by linarith)]
      rw [mul_comm (Bounties.totalRebuttalWeight rs) ((3 : ℚ)/10)]
    · have hz : Bounties.totalRebuttalWeight rs = 0 := le_antisymm (not_lt.mp h0) hnn
      rw [if_neg h0, if_pos hz]

/-- Witness for C1 at concrete inputs. -/
theorem C1_witness :
    Bounties.truthAnchor [5] [] = Bounties.originalConsensus [5] ∧
    Bounties.truthAnchor [5] [⟨10, 5, Stance.support⟩] =
      Bounties.specTruthAnchorAmended [5] [⟨10, 5, Stance.support⟩] :=
  ⟨C1_truth_anchor_blend.1 [5],
   C1_truth_anchor_blend.2 [5] [⟨10, 5, Stance.support⟩] (fun r hr => by
     rw [List.mem_singleton] at hr
     subst hr
     show (0 : ℚ) ≤ 10
     norm_num)⟩

/-- C2: every recorded `balance_after` lies in [0, 200]: the engine's clamp
(review bonus / outlier penalty / paper scoring), the registration bonus
(whose pre-state is always the starting credibility 50, since every other
operation requires a registered agent), the Elo author adjustment, the bounty
challenger reward (score drop ≥ 0.8 at its call site), the diversity bonus
(recorded only when > 0.1), and the reviewer/voter reconciliation
adjustments. -/
theorem C2_balance_after_bounds :
    (∀ cur change : ℚ, 0 ≤ Engine.applyCredibilityChange cur change ∧
      Engine.applyCredibilityChange cur change ≤ 200) ∧
    (∀ c : ℚ, c = 50 → 0 ≤ PartA.registrationBalanceAfter c ∧
      PartA.registrationBalanceAfter c ≤ 200) ∧
    (∀ (k : ReviewsApi.RCounters) (cred score : ℚ),
      0 ≤ ReviewsApi.eloAuthorBalanceAfter k cred score ∧
      ReviewsApi.eloAuthorBalanceAfter k cred score ≤ 200) ∧
    (∀ (k : Shared.Counters) (cred drop : ℚ),
      0 ≤ cred → Bounties.MIN_SCORE_DROP ≤ drop →
      0 ≤ Bounties.challengerBalanceAfter k cred drop ∧
      Bounties.challengerBalanceAfter k cred drop ≤ 200) ∧
    (∀ newCred bonus : ℚ, 0 ≤ newCred → 1/10 < bonus →
      0 ≤ Bounties.diversityBalanceAfter newCred bonus ∧
      Bounties.diversityBalanceAfter newCred bonus ≤ 200) ∧
    (∀ (k : Shared.Counters) (cred change : ℚ),
      0 ≤ Bounties.reconBalanceAfter k cred change ∧
      Bounties.reconBalanceAfter k cred change ≤ 200) := by
  refine ⟨?_, ?_, ?_, ?_, ?_, ?_⟩
  · intro cur change
    unfold Engine.applyCredibilityChange
    exact ⟨le_max_left _ _, max_le (by norm_num) (min_le_left _ _)⟩
  · intro c hc
    subst hc
    unfold PartA.registrationBalanceAfter PartA.REGISTRATION_BONUS
    norm_num
  · intro k cred score
    exact ReviewsApi.applyTierCapR_mem k (le_max_left _ _)
  · intro k cred drop hcred hdrop
    unfold Bounties.challengerBalanceAfter
    apply Shared.applyTierCap_mem
    have hgain : 0 ≤ Bounties.challengerCredGain drop := by
      unfold Bounties.challengerCredGain
      unfold Bounties.MIN_SCORE_DROP at hdrop
      exact le_min (by norm_num) (by linarith)
    exact le_min (by norm_num) (round2_nonneg (by linarith))
  · intro newCred bonus hc hb
    unfold Bounties.diversityBalanceAfter
    constructor
    · exact le_min (by norm_num) (round2_nonneg (by linarith))
    · exact min_le_left _ _
  · intro k cred change
    exact Shared.applyTierCap_mem k (le_max_left _ _)

/-- Witness for C2 at concrete inputs. -/
theorem C2_witness :
    (0 ≤ Engine.applyCredibilityChange 50 3 ∧
      Engine.applyCredibilityChange 50 3 ≤ 200) ∧
    (0 ≤ PartA.registrationBalanceAfter 50 ∧
      PartA.registrationBalanceAfter 50 ≤ 200) ∧
    (0 ≤ ReviewsApi.eloAuthorBalanceAfter ⟨0, 0, 0, 0, none, false, false⟩ 50 7 ∧
      ReviewsApi.eloAuthorBalanceAfter ⟨0, 0, 0, 0, none, false, false⟩ 50 7 ≤ 200) ∧
    (0 ≤ Bounties.challengerBalanceAfter ⟨0, 0, 0, 0, none⟩ 50 1 ∧
      Bounties.challengerBalanceAfter ⟨0, 0, 0, 0, none⟩ 50 1 ≤ 200) ∧
    (0 ≤ Bounties.diversityBalanceAfter 50 (1/2) ∧
      Bounties.diversityBalanceAfter 50 (1/2) ≤ 200) ∧
    (0 ≤ Bounties.reconBalanceAfter ⟨0, 0, 0, 0, none⟩ 50 (-1) ∧
      Bounties.reconBalanceAfter ⟨0, 0, 0, 0, none⟩ 50 (-1) ≤ 200) :=
  ⟨C2_balance_after_bounds.1 50 3,
   C2_balance_after_bounds.2.1 50 rfl,
   C2_balance_after_bounds.2.2.1 ⟨0, 0, 0, 0, none, false, false⟩ 50 7,
   C2_balance_after_bounds.2.2.2.1 ⟨0, 0, 0, 0, none⟩ 50 1 (by norm_num) (by
     unfold Bounties.MIN_SCORE_DROP
     norm_num),
   C2_balance_after_bounds.2.2.2.2.1 50 (1/2) (by norm_num) (by norm_num),
   C2_balance_after_bounds.2.2.2.2.2 ⟨0, 0, 0, 0, none⟩ 50 (-1)⟩

/-- C4: bounty validity is monotonic. The validate action leaves an already
valid bounty untouched (its query selects only `is_valid = false` rows), the
per-bounty step only ever sets `is_valid` to true, and across any sequence of
validate invocations a bounty that is valid stays valid. -/
theorem C4_bounty_validity_monotonic :
    (∀ (cur : Bounties.PaperSnap) (b : Bounties.Bounty), b.is_valid = true →
      Bounties.validateStep cur b = b) ∧
    (∀ (cur : Bounties.PaperSnap) (b : Bounties.Bounty), b.is_valid = true →
      (Bounties.validateStep cur b).is_valid = true) ∧
    (∀ (papers : List Bounties.PaperSnap) (b : Bounties.Bounty), b.is_valid = true →
      (papers.foldl (fun acc cur => Bounties.validateStep cur acc) b).is_valid =
        true) := by
  have h1 : ∀ (cur : Bounties.PaperSnap) (b : Bounties.Bounty), b.is_valid = true →
      Bounties.validateStep cur b = b := by
    intro cur b hb
    unfold Bounties.validateStep
    rw [if_pos hb]
  refine ⟨h1, fun cur b hb => by rw [h1 cur b hb, hb], ?_⟩
  intro papers
  induction papers with
  | nil =>
    intro b hb
    exact hb
  | cons p l ih =>
    intro b hb
    rw [List.foldl_cons, h1 p b hb]
    exact ih b hb

/-- Witness for C4 at concrete inputs. -/
theorem C4_witness :
    Bounties.validateStep ⟨some 7, 5⟩ ⟨true, some 9, some 7, some 2⟩ =
      ⟨true, some 9, some 7, some 2⟩ ∧
    (([⟨some 7, 5⟩, ⟨some 6, 6⟩] : List Bounties.PaperSnap).foldl
        (fun acc cur => Bounties.validateStep cur acc)
        ⟨true, some 9, some 7, some 2⟩).is_valid = true :=
  ⟨C4_bounty_validity_monotonic.1 ⟨some 7, 5⟩ ⟨true, some 9, some 7, some 2⟩ rfl,
   C4_bounty_validity_monotonic.2.2 [⟨some 7, 5⟩, ⟨some 6, 6⟩]
     ⟨true, some 9, some 7, some 2⟩ rfl⟩

/-- C5 (counterexample): the review-count precondition is the paper's current
total review count, not the count accumulated since the bounty's
registration. A pending bounty recorded at score_before 9 on a paper that
already had 3 reviews then, still has 3 reviews now, and now scores 8 (drop
1.0) is marked valid by the code, while the claim's precondition (≥ 3 reviews
since registration) fails — 0 reviews arrived after registration. -/
theorem C5_counterexample :
    (Bounties.validateStep ⟨some 8, 3⟩ ⟨false, some 9, none, none⟩).is_valid = true ∧
    ¬ Bounties.specValidates 3 ⟨some 8, 3⟩ ⟨false, some 9, none, none⟩ := by
  constructor
  · unfold Bounties.validateStep
    rw [if_neg (by simp), if_neg (by norm_num), if_neg (by norm_num)]
    rw [if_pos]
    constructor
    · show Bounties.MIN_SCORE_DROP ≤ (some (9 : ℚ)).getD 0 - (some (8 : ℚ)).getD 0
      unfold Bounties.MIN_SCORE_DROP
      norm_num
    · norm_num
  · intro h
    have h2 := h.2
    norm_num at h2

/-- C5 (amended): a pending bounty with a non-falsy recorded score_before, on
a currently scored target paper, is marked valid by the validate action
exactly when the current weighted score has dropped from score_before by at
least MIN_SCORE_DROP (0.8) AND the target paper's current total review count
is at least 3. -/
theorem C5_validate_iff (cur : Bounties.PaperSnap) (b : Bounties.Bounty) (sb ws : ℚ)
    (hb : b.is_valid = false) (hws : cur.weighted_score = some ws) (hws0 : ws ≠ 0)
    (hsb : b.score_before = some sb) (hsb0 : sb ≠ 0) :
    (Bounties.validateStep cur b).is_valid = true ↔
      (Bounties.MIN_SCORE_DROP ≤ sb - ws ∧ 3 ≤ cur.raw_review_count) := by
  unfold Bounties.validateStep
  rw [hws, hsb]
  rw [if_neg (by rw [hb]; simp)]
  rw [if_neg (by simpa using hws0), if_neg (by simpa using hsb0)]
  simp only [Option.getD_some]
  split_ifs with h
  · exact iff_of_true rfl h
  · exact iff_of_false (by rw [hb]; simp) h

/-- Witness for C5 at a concrete pending bounty (drop 2.0, 5 total reviews). -/
theorem C5_witness :
    (Bounties.validateStep ⟨some 7, 5⟩ ⟨false, some 9, none, none⟩).is_valid = true ↔
      (Bounties.MIN_SCORE_DROP ≤ (9 : ℚ) - 7 ∧ 3 ≤ 5) :=
  C5_validate_iff ⟨some 7, 5⟩ ⟨false, some 9, none, none⟩ 9 7 rfl rfl
    (by norm_num) rfl (by norm_num)

/-- Witness for C9 at concrete reviews (99 a's rejected; 100 a's with two
50-character notes). -/
theorem C9_witness :
    ¬ ReviewsApi.qualityGatePassed
        (ReviewsApi.ReviewInput.mk (List.replicate 99 'a') [] [] [] [] []) ∧
    (ReviewsApi.qualityGatePassed
        (ReviewsApi.ReviewInput.mk (List.replicate 100 'a')
          (List.replicate 50 'b') (List.replicate 50 'b') [] [] []) ↔
      2 ≤ (ReviewsApi.filledCategories
        (ReviewsApi.ReviewInput.mk (List.replicate 100 'a')
          (List.replicate 50 'b') (List.replicate 50 'b') [] [] [])).length) :=
  ⟨C9_quality_gate_boundary.1 _ (by decide),
   C9_quality_gate_boundary.2 _ (by decide) (by decide)⟩
